import Mathlib

/-!
Verification development for the winter-request-framework repository
(browser-side AJAX request lifecycle for Winter CMS).

The definitions below are a shallow embedding of the TypeScript sources:

* `src/request/base.ts`  — option defaults, the default lifecycle hooks
  (`onError`, `onUpdateResponse`, ...) and `WinterRequestFrameworkBase.send`;
* `src/request.ts`       — the `Request` subclass: element-derived option
  resolution and the `send` override with browser validation;
* `src/utils/index.ts` and `src/utils/inject-partials.ts` — `validateHandler`,
  `stringToBoolean` and `injectPartials`.

JavaScript values that the code inspects dynamically (option values, response
envelope fields) are embedded as the inductive `JsVal`; objects whose keys are
enumerated by the code are association lists in key-insertion order.  Promise
rejections and thrown exceptions are embedded as explicit `Except` / error
fields.  Hook invocations and DOM event dispatches are recorded in traces so
that statements about which notifications fire can be expressed.
-/

/-- A JavaScript value, as far as the embedded code discriminates values:
strings, numbers, booleans, `null`, `undefined`, plain objects and functions
(function values are only stored and compared for truthiness, so they are
embedded as opaque tags). -/
inductive JsVal : Type
| str (s : String)
| num (n : Int)
| bool (b : Bool)
| null
| undefined
| obj (fields : List (String × JsVal))
| fn (tag : String)

/-- JavaScript truthiness of a `JsVal`. -/
def truthy : JsVal → Bool
| .str s => s != ""
| .num n => n != 0
| .bool b => b
| .null => false
| .undefined => false
| .obj _ => true
| .fn _ => true

/-- JavaScript string coercion, for the value shapes the embedded code can
feed to `innerHTML` / `insertAdjacentHTML`. -/
def jsToString : JsVal → String
| .str s => s
| .num n => toString n
| .bool b => if b then "true" else "false"
| .null => "null"
| .undefined => "undefined"
| .obj _ => "[object Object]"
| .fn _ => "function"

/-- Strict equality with the literal `false`, as in the test
`this.options.confirm !== false` in `WinterRequestFrameworkBase.send`. -/
def isStrictFalse : JsVal → Bool
| .bool false => true
| _ => false

/-- A JavaScript object as an association list of own enumerable keys in
insertion order.  Lookup takes the first match; layered objects are
concatenated with the highest-precedence layer first, which gives exactly
the property set produced by `Object.assign` over the layers. -/
abbrev ObjMap : Type := List (String × JsVal)

/-- Property access `o[k]`: the stored value, or `undefined` when the key is
absent. -/
def getProp : ObjMap → String → JsVal
| [], _ => .undefined
| (k, v) :: rest, key => if k = key then v else getProp rest key

/-- Own-property test `k in o` (`undefined`-valued properties still count as
present, exactly as for `Object.assign`). -/
def hasKey : ObjMap → String → Bool
| [], _ => false
| (k, _) :: rest, key => k = key || hasKey rest key

/-- The `dataset` of a DOM element: the present `data-*` entries (camelCased
names), each holding a string. -/
abbrev Dataset : Type := List (String × String)

/-- Reading `element.dataset.foo`: the string when the attribute is present,
otherwise nothing (JavaScript `undefined`). -/
def dsGet : Dataset → String → Option String
| [], _ => none
| (k, v) :: rest, key => if k = key then some v else dsGet rest key

/-- Embeds a raw dataset read as a JavaScript value: a present attribute is a
string, an absent one is `undefined`. -/
def jsOfDataset : Option String → JsVal
| some s => .str s
| none => .undefined

/-- JavaScript loose equality `s == true` for a string `s`: both sides are
coerced to numbers, so it holds exactly when `ToNumber(s) = 1`.  Modelled for
optionally signed decimal integer numerals (the only string shapes the
`data-request-*` boolean attributes realistically carry). -/
def jsNumEqOne (s : String) : Bool :=
  match s.trim.toList with
  | '+' :: cs => cs.all Char.isDigit && cs.dropWhile (· = '0') = ['1']
  | cs => cs.all Char.isDigit && cs.dropWhile (· = '0') = ['1']

/-- `stringToBoolean` from `src/utils/index.ts`:
`(typeof string === 'string' && string.toLowerCase() === 'true') || string == true`,
applied to a dataset read (a string or `undefined`). -/
def stringToBoolean : Option String → Bool
| some s => s.toLower == "true" || jsNumEqOne s
| none => false

/-- The built-in option defaults `defaults` from `src/request/base.ts`, in
source order.  `window.location.href` is an environment input and is passed
in as `locationHref`; the handler functions are opaque function values. -/
def defaultsMap (locationHref : String) : ObjMap :=
  [("url", .str locationHref),
   ("confirm", .bool false),
   ("data", .obj []),
   ("redirect", .null),
   ("json", .bool false),
   ("update", .obj []),
   ("flash", .bool false),
   ("files", .bool false),
   ("browserValidate", .bool false),
   ("loading", .null),
   ("trackInput", .bool false),
   ("handlers", .obj
     [("onSetup", .fn "defaults.onSetup"),
      ("onSuccess", .fn "defaults.onSuccess"),
      ("onError", .fn "defaults.onError"),
      ("onComplete", .fn "defaults.onComplete"),
      ("onErrorMessage", .fn "defaults.onErrorMessage"),
      ("onConfirmMessage", .fn "defaults.onConfirmMessage"),
      ("onValidationMessage", .fn "defaults.onValidationMessage"),
      ("onFlashMessage", .fn "defaults.onFlashMessage"),
      ("onUpdateResponse", .fn "defaults.onUpdateResponse"),
      ("onRedirectResponse", .fn "defaults.onRedirectResponse"),
      ("onBeforeUpdate", .fn "defaults.onBeforeUpdate"),
      ("onAssets", .fn "defaults.onAssets"),
      ("trackInput", .fn "trackInput")]),
   ("ajaxHandlers", .obj
     [("ajaxSetup", .fn "defaults.ajaxSetup"),
      ("ajaxPromise", .fn "defaults.ajaxPromise"),
      ("ajaxFail", .fn "defaults.ajaxFail"),
      ("ajaxDone", .fn "defaults.ajaxDone"),
      ("ajaxAlways", .fn "defaults.ajaxAlways"),
      ("ajaxRedirected", .fn "defaults.ajaxRedirected")])]

/-- The element-derived option layer built by the `Request` constructor
(`src/request.ts`, the first source object passed to `Object.assign`), in
source order.  `p2o` is the JSON5 `paramToObj` collaborator
(`paramToObj(undefined)` parses the empty literal and yields an object). -/
def elementLayer (p2o : Option String → JsVal) (ds : Dataset) : ObjMap :=
  [("confirm", jsOfDataset (dsGet ds "requestConfirm")),
   ("redirect", jsOfDataset (dsGet ds "requestRedirect")),
   ("loading", jsOfDataset (dsGet ds "requestLoading")),
   ("flash", .bool (stringToBoolean (dsGet ds "requestFlash"))),
   ("files", .bool (stringToBoolean (dsGet ds "requestFiles"))),
   ("json", .bool (stringToBoolean (dsGet ds "requestJson"))),
   ("form", jsOfDataset (dsGet ds "requestForm")),
   ("url", jsOfDataset (dsGet ds "requestUrl")),
   ("update", p2o (dsGet ds "requestUpdate")),
   ("data", p2o (dsGet ds "requestData")),
   ("browserValidate", .bool (stringToBoolean (dsGet ds "requestBrowserValidate")))]

/-- Effective options of a constructed `Request`: the base constructor copies
the defaults (`this.options = { ...defaults, ...{} }`) and the `Request`
constructor then runs `Object.assign(this.options, elementLayer, options)`.
Under first-match lookup the assigned object is the concatenation with the
caller layer first, then the element layer, then the defaults. -/
def resolveOptions (p2o : Option String → JsVal) (locationHref : String)
    (ds : Dataset) (caller : ObjMap) : ObjMap :=
  caller ++ elementLayer p2o ds ++ defaultsMap locationHref

/-- JavaScript `\w` (ASCII word character). -/
def isWordChar (c : Char) : Bool := c.isAlphanum || c == '_'

/-- Continuation of the regex `^(?:\w+:{2})?on*` after at least one word
character of the optional scope has been consumed: either the scope ends here
with `::` followed by the literal `o` (`n*` matches the empty string), or the
scope continues with another word character. -/
def scopeTail : List Char → Bool
| ':' :: ':' :: 'o' :: _ => true
| c :: cs => isWordChar c && scopeTail cs
| [] => false

/-- `handler.match(/^(?:\w+:{2})?on*/) !== null` from `validateHandler` in
`src/utils/index.ts`.  Note that `on*` is the literal `o` followed by zero or
more `n`, and the match is not anchored at the end, so any name whose local
part merely starts with the letter `o` matches. -/
def handlerMatches (s : String) : Bool :=
  match s.toList with
  | 'o' :: _ => true
  | c :: cs => isWordChar c && scopeTail cs
  | [] => false

/-- `validateHandler` from `src/utils/index.ts`: absent (`undefined`) handler
names and names failing the regex throw; everything else passes. -/
def validateHandler : Option String → Except String Unit
| none => .error "The request handler name is not specified."
| some h =>
    if handlerMatches h then .ok ()
    else .error ("Invalid handler name " ++ h)

/-- Modelled from the claim wording, for comparison with `validateHandler`:
the documented handler-name format `[scopeName::]onEventName`, an optional
scope prefix followed by an identifier that starts with `on`. -/
def specOnName : List Char → Bool
| 'o' :: 'n' :: rest => rest.all isWordChar
| _ => false

/-- Scope part of the documented format: word characters up to `::`, then an
`on`-prefixed identifier. -/
def specScopeTail : List Char → Bool
| ':' :: ':' :: rest => specOnName rest
| c :: cs => isWordChar c && specScopeTail cs
| [] => false

/-- The documented handler-name format `[scopeName::]onEventName` (claim
wording), as a predicate on the whole name. -/
def specClaimedHandlerFormat (s : String) : Bool :=
  match s.toList with
  | [] => false
  | c :: cs => specOnName (c :: cs) || (isWordChar c && specScopeTail cs)

/-- Construction of a `Request`: `validateHandler` runs first (in the base
constructor, before any option is stored), then the option layers are
resolved.  A name rejected by `validateHandler` therefore never reaches a
constructed instance. -/
def requestConstruct (p2o : Option String → JsVal) (locationHref : String)
    (handler : Option String) (ds : Dataset) (caller : ObjMap) :
    Except String ObjMap :=
  match validateHandler handler with
  | .error e => .error e
  | .ok _ => .ok (resolveOptions p2o locationHref ds caller)

/-- The DOM, abstracted for `injectPartials`: elements are identified by the
selector that finds them, and carry their inner HTML content.  `setContent`
replaces the content of the first element a selector matches. -/
abbrev Dom : Type := List (String × String)

/-- `document.querySelector(sel)`: inner content of the first matching
element, or nothing when no element matches. -/
def querySelector : Dom → String → Option String
| [], _ => none
| (s, c) :: rest, sel => if s = sel then some c else querySelector rest sel

/-- Overwrite the inner content of the first element matching `sel`. -/
def setContent : Dom → String → String → Dom
| [], _, _ => []
| (s, c) :: rest, sel, v =>
    if s = sel then (s, v) :: rest else (s, c) :: setContent rest sel v

/-- `selector[0]` of a JavaScript string: its first character, if any. -/
def firstChar (s : String) : Option Char := s.data.head?

/-- `selector.substring(1)`. -/
def dropFirst (s : String) : String := ⟨s.data.tail⟩

/-- DOM notifications dispatched by `injectPartials`
(`src/utils/inject-partials.ts`). -/
inductive InjEv : Type
| beforeReplace (selector : String)
| ajaxUpdate (selector : String)
| updateComplete
| resize
deriving DecidableEq, Repr

/-- Exceptions of the embedded code: the `TypeError` raised by a member
access on `undefined`/`null`, the pre-flight `ValidationFailedError`, a
transport rejection, or any other thrown value. -/
inductive JsErr : Type
| typeError
| validationFailed
| axiosRejection (status : Nat) (statusText : String) (hasBody : Bool)
| other (tag : String)
deriving DecidableEq, Repr

/-- Selector resolution in `injectPartials`:
`partials[partial] ? partials[partial] : partial` (a truthiness test, so an
empty mapped selector also falls back to the key itself). -/
def resolveSelector (update : List (String × String)) (key : String) : String :=
  match update.find? (fun p => p.1 == key) with
  | some p => if p.2 != "" then p.2 else key
  | none => key

/-- The element a resolved selector addresses: prefixes `^` and `@` are
stripped before the DOM query. -/
def matchedElement (dom : Dom) (sel : String) : Option String :=
  if firstChar sel = some '^' then querySelector dom (dropFirst sel)
  else if firstChar sel = some '@' then querySelector dom (dropFirst sel)
  else querySelector dom sel

/-- One iteration of the `for (const partial in data)` loop of
`injectPartials`: prepend for `^`, append for `@`, full inner-content replace
otherwise.  When the query matches no element the subsequent member access on
`null` (`dispatchEvent` in the replace branch, `insertAdjacentHTML`
otherwise) throws a `TypeError` before any notification fires. -/
def injectStep (dom : Dom) (sel : String) (v : JsVal) :
    Except JsErr (Dom × List InjEv) :=
  if firstChar sel = some '^' then
    match querySelector dom (dropFirst sel) with
    | none => .error .typeError
    | some c =>
        .ok (setContent dom (dropFirst sel) (jsToString v ++ c),
             [.ajaxUpdate (dropFirst sel)])
  else if firstChar sel = some '@' then
    match querySelector dom (dropFirst sel) with
    | none => .error .typeError
    | some c =>
        .ok (setContent dom (dropFirst sel) (c ++ jsToString v),
             [.ajaxUpdate (dropFirst sel)])
  else
    match querySelector dom sel with
    | none => .error .typeError
    | some _ =>
        .ok (setContent dom sel (jsToString v),
             [.beforeReplace sel, .ajaxUpdate sel])

/-- Outcome of a run of `injectPartials`: the notifications dispatched, the
DOM after the run, and the exception that aborted it, if any (DOM mutations
made before the throw persist). -/
structure InjOut : Type where
  events : List InjEv
  dom : Dom
  err : Option JsErr

/-- The key loop of `injectPartials` over the own keys of the response data,
in order; an exception aborts the remaining keys. -/
def injectLoop (update : List (String × String)) (dom : Dom) :
    List (String × JsVal) → InjOut
| [] => ⟨[], dom, none⟩
| (k, v) :: rest =>
    match injectStep dom (resolveSelector update k) v with
    | .error e => ⟨[], dom, some e⟩
    | .ok (dom2, evs) =>
        let tail := injectLoop update dom2 rest
        ⟨evs ++ tail.events, tail.dom, tail.err⟩

/-- `injectPartials` from `src/utils/inject-partials.ts`: process every own
key of the response data, then dispatch `ajaxUpdateComplete` and a `resize`
notification on `window` (only when no key threw). -/
def injectPartials (update : List (String × String)) (dom : Dom)
    (data : ObjMap) : InjOut :=
  let o := injectLoop update dom data
  match o.err with
  | some _ => o
  | none => ⟨o.events ++ [.updateComplete, .resize], o.dom, none⟩

/-- One application of `injectPartials` to a single key/value payload with no
client-side partial map, as in the idempotence claim. -/
def applyOnce (dom : Dom) (key v : String) : InjOut :=
  injectPartials [] dom [(key, JsVal.str v)]

/-- An axios success response (`AxiosResponse`): status, status text and the
parsed response envelope (`WinterRequestResponseData`), embedded as an object
whose own keys are enumerable in order. -/
structure AxiosResp : Type where
  status : Nat
  statusText : String
  data : ObjMap

/-- The `response` property of an axios transport error, when the server
answered at all.  `data` is the parsed body; `none` stands for an absent or
falsy body (the code only tests `error.response.data` for truthiness). -/
structure ErrResponse : Type where
  status : Nat
  statusText : String
  data : Option ObjMap

/-- An axios transport rejection value.  A rejection caused by `cancel()` is
a `Cancel` object carrying no `response` property at all; network failures
likewise have `response = none`. -/
structure AxiosErr : Type where
  response : Option ErrResponse

/-- The `error.response` member access, on any thrown value the catch block
of `send` can hand to the error hook: only an axios error carries a
`response`; on every other thrown value the property is `undefined`. -/
inductive CaughtErr : Type
| axiosErr (e : AxiosErr)
| js (e : JsErr)

/-- `error.response` of a caught value. -/
def caughtResponse : CaughtErr → Option ErrResponse
| .axiosErr e => e.response
| .js _ => none

/-- Hook invocations recorded by the default error hook. -/
inductive ErrEv : Type
| updateResponseCall (data : ObjMap)
| errorMessageCall (message : JsVal)

/-- The default `handlers.onError` from `src/request/base.ts`:

  let errorMsg = error.response.statusText  (throws `TypeError` when the
    error has no `response`, e.g. after `cancel()`);
  on status 406 with a truthy body, take the message from the body and route
    the body through `handlers.onUpdateResponse` (awaited, so its exception
    propagates);
  finally invoke `handlers.onErrorMessage` (not awaited).

`upd` is the outcome of awaiting the configured update-response hook. -/
def defaultOnError (upd : ObjMap → List ErrEv × Except JsErr Unit)
    (e : CaughtErr) : List ErrEv × Except JsErr Unit :=
  match caughtResponse e with
  | none => ([], .error .typeError)
  | some r =>
    match r.data, r.status == 406 with
    | some d, true =>
        let u := upd d
        match u.2 with
        | .error e2 => (.updateResponseCall d :: u.1, .error e2)
        | .ok _ =>
            (.updateResponseCall d :: u.1
               ++ [.errorMessageCall (getProp d "X_WINTER_ERROR_MESSAGE")],
             .ok ())
    | _, _ => ([.errorMessageCall (.str r.statusText)], .ok ())

/-- Hook invocations and notifications recorded by the default
update-response hook. -/
inductive UpdEv : Type
| redirectCall (url : JsVal)
| assetsCall (assets : JsVal)
| inj (e : InjEv)
| validationCall (message : JsVal) (fields : JsVal)

/-- Outcome of the default update-response hook: recorded events, resulting
DOM, and a propagated exception, if any. -/
structure UpdOut : Type where
  events : List UpdEv
  dom : Dom
  err : Option JsErr

/-- The default `handlers.onUpdateResponse` from `src/request/base.ts`: when
`data.X_WINTER_REDIRECT` is truthy, invoke `handlers.onRedirectResponse`
(not awaited) and return at once; otherwise invoke `handlers.onAssets` when
`data.X_WINTER_ASSETS` is truthy, then run `injectPartials` (awaited), then
invoke `handlers.onValidationMessage` (not awaited) when
`data.X_WINTER_ERROR_FIELDS` is truthy. -/
def defaultOnUpdateResponse (update : List (String × String)) (dom : Dom)
    (data : ObjMap) : UpdOut :=
  if truthy (getProp data "X_WINTER_REDIRECT") then
    ⟨[.redirectCall (getProp data "X_WINTER_REDIRECT")], dom, none⟩
  else
    let assetsEvs :=
      if truthy (getProp data "X_WINTER_ASSETS") then
        [UpdEv.assetsCall (getProp data "X_WINTER_ASSETS")]
      else []
    let io := injectPartials update dom data
    match io.err with
    | some e => ⟨assetsEvs ++ io.events.map .inj, io.dom, some e⟩
    | none =>
        let vEvs :=
          if truthy (getProp data "X_WINTER_ERROR_FIELDS") then
            [UpdEv.validationCall (getProp data "X_WINTER_ERROR_MESSAGE")
               (getProp data "X_WINTER_ERROR_FIELDS")]
          else []
        ⟨assetsEvs ++ io.events.map .inj ++ vEvs, io.dom, none⟩

/-- Lifecycle steps of a `send` run: dispatches made by `Request.send` before
delegating, and the hook invocations of `WinterRequestFrameworkBase.send`.
An event is recorded when the hook is invoked, whether or not it throws. -/
inductive Ev : Type
| ajaxSetupDispatch
| wnBeforeRequestDispatch
| confirmHook (message : Option String)
| setupHook
| transportCall
| successHook
| errorHook
| completeHook
deriving DecidableEq, Repr

/-- Resolved behaviour of the configured hooks during one lifecycle run: the
value the confirm hook resolves to, and the outcome (normal return or thrown
value) of the setup, success, error and complete hooks. -/
structure HookOutcomes : Type where
  confirm : Except JsErr JsVal
  setup : Except JsErr Unit
  success : Except JsErr Unit
  error : CaughtErr → Except JsErr Unit
  complete : Except JsErr Unit

/-- Result of the promise returned by `send`. -/
inductive SendResult : Type
| resolved (response : Option AxiosResp)
| rejected (e : JsErr)

/-- The `finally` block of `WinterRequestFrameworkBase.send`: always invoke
`handlers.onComplete`; if it throws, its exception replaces the pending
result. -/
def finallyPhase (o : HookOutcomes) (r : SendResult) : List Ev × SendResult :=
  match o.complete with
  | .error e => ([.completeHook], .rejected e)
  | .ok _ => ([.completeHook], r)

/-- The `catch` block of `WinterRequestFrameworkBase.send`: invoke
`handlers.onError` (the rethrow is commented out in the source, so a normal
return resolves the promise with no value); an exception thrown by the error
hook itself still runs the `finally` block and then rejects the promise. -/
def catchPhase (o : HookOutcomes) (e : CaughtErr) : List Ev × SendResult :=
  let f := match o.error e with
    | .error e2 => finallyPhase o (.rejected e2)
    | .ok _ => finallyPhase o (.resolved none)
  (.errorHook :: f.1, f.2)

/-- The `try` block of `WinterRequestFrameworkBase.send`: build the request
(`setup`, which awaits `handlers.onSetup`), invoke the transport, then await
`handlers.onSuccess` and resolve with the raw response. -/
def tryPhase (o : HookOutcomes) (transport : Except AxiosErr AxiosResp) :
    List Ev × SendResult :=
  match o.setup with
  | .error e =>
      let c := catchPhase o (.js e)
      (.setupHook :: c.1, c.2)
  | .ok _ =>
    match transport with
    | .error ae =>
        let c := catchPhase o (.axiosErr ae)
        (.setupHook :: .transportCall :: c.1, c.2)
    | .ok resp =>
      match o.success with
      | .error e =>
          let c := catchPhase o (.js e)
          (.setupHook :: .transportCall :: .successHook :: c.1, c.2)
      | .ok _ =>
          let f := finallyPhase o (.resolved (some resp))
          (.setupHook :: .transportCall :: .successHook :: f.1, f.2)

/-- The confirm message: `typeof this.options.confirm === 'string' ?
this.options.confirm : null`. -/
def confirmMessage : JsVal → Option String
| .str s => some s
| _ => none

/-- `WinterRequestFrameworkBase.send` from `src/request/base.ts`.  When
`options.confirm !== false`, the confirm hook runs first and a falsy resolved
value returns immediately; otherwise the try/catch/finally around the
transport call runs. -/
def sendBase (confirm : JsVal) (o : HookOutcomes)
    (transport : Except AxiosErr AxiosResp) : List Ev × SendResult :=
  if isStrictFalse confirm then tryPhase o transport
  else
    let msg := confirmMessage confirm
    match o.confirm with
    | .error e => ([.confirmHook msg], .rejected e)
    | .ok v =>
        if truthy v then
          let t := tryPhase o transport
          (.confirmHook msg :: t.1, t.2)
        else ([.confirmHook msg], .resolved none)

/-- `Request.send` from `src/request.ts`: the browser-validation gate
(`if (this.options.browserValidate && this.form.checkValidity()) { ...
throw new ValidationFailedError(); }`), then the `ajaxSetup` dispatch, the
cancelable `wnBeforeRequest` dispatch, and delegation to the base `send`.
`checkValidity` is the browser verdict on the bound form (`true` when the
form is valid). -/
def requestSend (browserValidate checkValidity beforeRequestOk : Bool)
    (confirm : JsVal) (o : HookOutcomes)
    (transport : Except AxiosErr AxiosResp) : List Ev × SendResult :=
  if browserValidate && checkValidity then
    ([], .rejected .validationFailed)
  else if !beforeRequestOk then
    ([.ajaxSetupDispatch, .wnBeforeRequestDispatch], .resolved none)
  else
    let t := sendBase confirm o transport
    (.ajaxSetupDispatch :: .wnBeforeRequestDispatch :: t.1, t.2)

/-- A hook setting where every hook returns normally and the confirm hook
resolves to `true`; used to instantiate lifecycle runs at concrete inputs. -/
def okHooks : HookOutcomes :=
  ⟨.ok (.bool true), .ok (), .ok (), fun _ => .ok (), .ok ()⟩

/-- A hook setting whose confirm hook resolves to `false`. -/
def decliningHooks : HookOutcomes :=
  ⟨.ok (.bool false), .ok (), .ok (), fun _ => .ok (), .ok ()⟩

/-- An update-response sub-hook outcome that returns normally and records no
further events. -/
def updOk : ObjMap → List ErrEv × Except JsErr Unit := fun _ => ([], .ok ())

/-- Hook setting running the default error hook (with its update-response
sub-hook returning normally); all other hooks return normally. -/
def defaultErrorHooks : HookOutcomes :=
  ⟨.ok (.bool true), .ok (), .ok (), fun e => (defaultOnError updOk e).2, .ok ()⟩

/-- A concrete stand-in for the JSON5 collaborator: every attribute parses to
the empty object (its value is irrelevant to the option-layer claims). -/
def paramToObjEmpty : Option String → JsVal := fun _ => JsVal.obj []

theorem hasKey_append (a b : ObjMap) (key : String) :
    hasKey (a ++ b) key = (hasKey a key || hasKey b key) := by
  induction a with
  | nil => simp [hasKey]
  | cons p rest ih =>
    obtain ⟨k, v⟩ := p
    by_cases h : k = key
    · simp [hasKey, h]
    · simp [hasKey, h, ih]

theorem getProp_append (a b : ObjMap) (key : String) :
    getProp (a ++ b) key =
      if hasKey a key then getProp a key else getProp b key := by
  induction a with
  | nil => simp [getProp, hasKey]
  | cons p rest ih =>
    obtain ⟨k, v⟩ := p
    by_cases h : k = key
    · simp [getProp, hasKey, h]
    · simp [getProp, hasKey, h, ih]

theorem querySelector_setContent (dom : Dom) (sel v c : String)
    (h : querySelector dom sel = some c) :
    querySelector (setContent dom sel v) sel = some v := by
  induction dom with
  | nil => simp [querySelector] at h
  | cons p rest ih =>
    obtain ⟨s, cc⟩ := p
    by_cases hs : s = sel
    · simp [querySelector, setContent, hs]
    · simp [querySelector, setContent, hs] at h ⊢
      exact ih h

theorem setContent_setContent (dom : Dom) (sel v w : String) :
    setContent (setContent dom sel v) sel w = setContent dom sel w := by
  induction dom with
  | nil => rfl
  | cons p rest ih =>
    obtain ⟨s, cc⟩ := p
    by_cases hs : s = sel
    · simp [setContent, hs]
    · simp [setContent, hs, ih]

theorem injectStep_replace (dom : Dom) (sel : String) (v : JsVal) (c : String)
    (h1 : firstChar sel ≠ some '^') (h2 : firstChar sel ≠ some '@')
    (hq : querySelector dom sel = some c) :
    injectStep dom sel v =
      .ok (setContent dom sel (jsToString v),
           [.beforeReplace sel, .ajaxUpdate sel]) := by
  unfold injectStep
  rw [if_neg h1, if_neg h2, hq]

theorem injectStep_append (dom : Dom) (sel : String) (v : JsVal) (c : String)
    (h1 : firstChar sel ≠ some '^') (h2 : firstChar sel = some '@')
    (hq : querySelector dom (dropFirst sel) = some c) :
    injectStep dom sel v =
      .ok (setContent dom (dropFirst sel) (c ++ jsToString v),
           [.ajaxUpdate (dropFirst sel)]) := by
  unfold injectStep
  rw [if_neg h1, if_pos h2, hq]

theorem injectStep_prepend (dom : Dom) (sel : String) (v : JsVal) (c : String)
    (h1 : firstChar sel = some '^')
    (hq : querySelector dom (dropFirst sel) = some c) :
    injectStep dom sel v =
      .ok (setContent dom (dropFirst sel) (jsToString v ++ c),
           [.ajaxUpdate (dropFirst sel)]) := by
  unfold injectStep
  rw [if_pos h1, hq]

theorem injectStep_missing (dom : Dom) (sel : String) (v : JsVal)
    (h : matchedElement dom sel = none) :
    injectStep dom sel v = .error .typeError := by
  unfold matchedElement at h
  unfold injectStep
  by_cases h1 : firstChar sel = some '^'
  · rw [if_pos h1] at h ⊢
    rw [h]
  · rw [if_neg h1] at h ⊢
    by_cases h2 : firstChar sel = some '@'
    · rw [if_pos h2] at h ⊢
      rw [h]
    · rw [if_neg h2] at h ⊢
      rw [h]

theorem applyOnce_replace (dom : Dom) (k v : String) (c : String)
    (h1 : firstChar k ≠ some '^') (h2 : firstChar k ≠ some '@')
    (hq : querySelector dom k = some c) :
    applyOnce dom k v =
      ⟨[.beforeReplace k, .ajaxUpdate k, .updateComplete, .resize],
       setContent dom k v, none⟩ := by
  have hstep : injectStep dom k (JsVal.str v) =
      .ok (setContent dom k v, [.beforeReplace k, .ajaxUpdate k]) :=
    injectStep_replace dom k (JsVal.str v) c h1 h2 hq
  simp [applyOnce, injectPartials, injectLoop, resolveSelector, hstep]

theorem applyOnce_append (dom : Dom) (k v : String) (c : String)
    (hq : querySelector dom k = some c) :
    applyOnce dom ("@" ++ k) v =
      ⟨[.ajaxUpdate k, .updateComplete, .resize],
       setContent dom k (c ++ v), none⟩ := by
  have h2 : firstChar ("@" ++ k) = some '@' := rfl
  have h1 : firstChar ("@" ++ k) ≠ some '^' := by rw [h2]; decide
  have hstep : injectStep dom ("@" ++ k) (JsVal.str v) =
      .ok (setContent dom k (c ++ v), [.ajaxUpdate k]) :=
    injectStep_append dom ("@" ++ k) (JsVal.str v) c h1 h2 hq
  simp [applyOnce, injectPartials, injectLoop, resolveSelector, hstep]

theorem applyOnce_prepend (dom : Dom) (k v : String) (c : String)
    (hq : querySelector dom k = some c) :
    applyOnce dom ("^" ++ k) v =
      ⟨[.ajaxUpdate k, .updateComplete, .resize],
       setContent dom k (v ++ c), none⟩ := by
  have h1 : firstChar ("^" ++ k) = some '^' := rfl
  have hstep : injectStep dom ("^" ++ k) (JsVal.str v) =
      .ok (setContent dom k (v ++ c), [.ajaxUpdate k]) :=
    injectStep_prepend dom ("^" ++ k) (JsVal.str v) c h1 hq
  simp [applyOnce, injectPartials, injectLoop, resolveSelector, hstep]

/-- C1: for every lifecycle run in which the confirm hook is invoked
(`options.confirm !== false`) and resolves to a falsy value, `send` returns
immediately resolving to nothing: the trace holds exactly the confirm-hook
invocation, so no transport call is made and none of the error, complete or
success hooks fire. -/
theorem c1_confirm_falsy_aborts (confirm : JsVal) (o : HookOutcomes)
    (transport : Except AxiosErr AxiosResp) (v : JsVal)
    (hc : isStrictFalse confirm = false) (ho : o.confirm = .ok v)
    (hv : truthy v = false) :
    sendBase confirm o transport =
      ([.confirmHook (confirmMessage confirm)], .resolved none) ∧
    Ev.transportCall ∉ (sendBase confirm o transport).1 ∧
    Ev.errorHook ∉ (sendBase confirm o transport).1 ∧
    Ev.completeHook ∉ (sendBase confirm o transport).1 ∧
    Ev.successHook ∉ (sendBase confirm o transport).1 := by
  have h : sendBase confirm o transport =
      ([.confirmHook (confirmMessage confirm)], .resolved none) := by
    simp [sendBase, hc, ho, hv]
  refine ⟨h, ?_, ?_, ?_, ?_⟩ <;> rw [h] <;> simp

theorem c1_witness :
    truthy (JsVal.bool false) = false ∧
    sendBase (.str "Sure?") decliningHooks
        (.ok ⟨200, "OK", [("result", JsVal.null)]⟩) =
      ([.confirmHook (some "Sure?")], .resolved none) :=
  ⟨rfl,
   (c1_confirm_falsy_aborts (.str "Sure?") decliningHooks
     (.ok ⟨200, "OK", [("result", JsVal.null)]⟩) (.bool false)
     rfl rfl rfl).1⟩

/-- C2 counterexample: the response field `X_WINTER_REDIRECT` is present but
holds the empty string, which is falsy; the default update-response hook
does not invoke the redirect hook at all and instead runs partial injection
(replacing the content of the element matched by the key and dispatching the
update-complete and resize notifications), refuting the claim that presence
of the field alone triggers the redirect hook and skips all processing. -/
theorem c2_counterexample :
    getProp [("X_WINTER_REDIRECT", JsVal.str "")] "X_WINTER_REDIRECT" =
      JsVal.str "" ∧
    defaultOnUpdateResponse [] [("X_WINTER_REDIRECT", "old")]
        [("X_WINTER_REDIRECT", JsVal.str "")] =
      ⟨[.inj (.beforeReplace "X_WINTER_REDIRECT"),
        .inj (.ajaxUpdate "X_WINTER_REDIRECT"),
        .inj .updateComplete, .inj .resize],
       [("X_WINTER_REDIRECT", "")], none⟩ :=
  ⟨rfl, rfl⟩

/-- C2 (amended): for every response payload whose `X_WINTER_REDIRECT` field
is present and truthy (a non-empty string), the default update-response hook
invokes the redirect hook exactly once with that URL and returns
immediately: the event trace is exactly that one invocation, the DOM is
untouched (no asset processing, no partial injection, no validation
processing) and nothing is thrown. -/
theorem c2_redirect_short_circuits (update : List (String × String))
    (dom : Dom) (data : ObjMap) (url : String)
    (h : getProp data "X_WINTER_REDIRECT" = .str url) (hu : url ≠ "") :
    defaultOnUpdateResponse update dom data =
      ⟨[.redirectCall (.str url)], dom, none⟩ := by
  have ht : truthy (JsVal.str url) = true := by simp [truthy, hu]
  simp [defaultOnUpdateResponse, h, ht]

theorem c2_witness :
    getProp [("X_WINTER_REDIRECT", JsVal.str "/home")] "X_WINTER_REDIRECT" =
      JsVal.str "/home" ∧
    defaultOnUpdateResponse [("p", "#d")] [("#d", "z")]
        [("X_WINTER_REDIRECT", JsVal.str "/home")] =
      ⟨[.redirectCall (.str "/home")], [("#d", "z")], none⟩ :=
  ⟨rfl,
   c2_redirect_short_circuits [("p", "#d")] [("#d", "z")]
     [("X_WINTER_REDIRECT", JsVal.str "/home")] "/home" rfl (by decide)⟩

/-- C3 counterexample: a transport failure whose error carries no `response`
object at all (exactly what `cancel()` and network failures produce) is a
non-406 failure, yet the default error hook does not hand the error-message
hook anything: the very first line `error.response.statusText` throws a
`TypeError`, so the recorded trace is empty. -/
theorem c3_counterexample :
    defaultOnError updOk (.axiosErr ⟨none⟩) = ([], .error .typeError) :=
  rfl

/-- C3 (amended): for every transport failure whose error carries a
`response` object, the default error hook behaves as claimed: on HTTP 406
with a structured (truthy) body the body is routed through the
update-response hook and, when that hook returns normally, the error-message
hook receives the body field `X_WINTER_ERROR_MESSAGE`; on any non-406
status the error-message hook receives the transport status text.  (Failures
without a `response` object instead throw, see the counterexample.) -/
theorem c3_response_error_routing
    (upd : ObjMap → List ErrEv × Except JsErr Unit) (e : CaughtErr)
    (r : ErrResponse) (hr : caughtResponse e = some r) :
    (∀ d, r.data = some d → r.status = 406 → upd d = ([], .ok ()) →
       defaultOnError upd e =
         ([.updateResponseCall d,
           .errorMessageCall (getProp d "X_WINTER_ERROR_MESSAGE")],
          .ok ())) ∧
    (r.status ≠ 406 →
       defaultOnError upd e =
         ([.errorMessageCall (.str r.statusText)], .ok ())) := by
  constructor
  · intro d hd h406 hupd
    simp [defaultOnError, hr, hd, h406, hupd]
  · intro hne
    have hb : (r.status == 406) = false := by simp [hne]
    cases hdata : r.data <;> simp [defaultOnError, hr, hdata, hb]

theorem c3_witness :
    caughtResponse (.axiosErr ⟨some ⟨406, "Not Acceptable",
        some [("X_WINTER_ERROR_MESSAGE", JsVal.str "Bad input")]⟩⟩) =
      some ⟨406, "Not Acceptable",
        some [("X_WINTER_ERROR_MESSAGE", JsVal.str "Bad input")]⟩ ∧
    defaultOnError updOk (.axiosErr ⟨some ⟨406, "Not Acceptable",
        some [("X_WINTER_ERROR_MESSAGE", JsVal.str "Bad input")]⟩⟩) =
      ([.updateResponseCall [("X_WINTER_ERROR_MESSAGE", JsVal.str "Bad input")],
        .errorMessageCall (getProp [("X_WINTER_ERROR_MESSAGE", JsVal.str "Bad input")]
          "X_WINTER_ERROR_MESSAGE")],
       .ok ()) ∧
    defaultOnError updOk (.axiosErr ⟨some ⟨500, "Server Error", none⟩⟩) =
      ([.errorMessageCall (.str "Server Error")], .ok ()) :=
  ⟨rfl,
   (c3_response_error_routing updOk
     (.axiosErr ⟨some ⟨406, "Not Acceptable",
        some [("X_WINTER_ERROR_MESSAGE", JsVal.str "Bad input")]⟩⟩)
     ⟨406, "Not Acceptable",
        some [("X_WINTER_ERROR_MESSAGE", JsVal.str "Bad input")]⟩ rfl).1
     [("X_WINTER_ERROR_MESSAGE", JsVal.str "Bad input")] rfl rfl rfl,
   (c3_response_error_routing updOk
     (.axiosErr ⟨some ⟨500, "Server Error", none⟩⟩)
     ⟨500, "Server Error", none⟩ rfl).2 (by decide)⟩

/-- C4: the claim that a lifecycle run reaching the transport call always
resolves (never rejects) on transport failure, including failure caused by
`cancel()`, fails on the code.  A cancellation rejects the transport promise
with an error carrying no `response`, whereupon the default error hook
throws a `TypeError` on `error.response.statusText` and `send` rejects
(after the complete hook has still run exactly once, in the `finally`
block).  A failure that does carry a `response` resolves to nothing as
claimed, isolating the divergence to response-less errors. -/
theorem c4_cancel_rejects :
    sendBase (.bool false) defaultErrorHooks (.error ⟨none⟩) =
      ([.setupHook, .transportCall, .errorHook, .completeHook],
       .rejected .typeError) ∧
    sendBase (.bool false) defaultErrorHooks
        (.error ⟨some ⟨500, "Server Error", none⟩⟩) =
      ([.setupHook, .transportCall, .errorHook, .completeHook],
       .resolved none) :=
  ⟨rfl, rfl⟩

/-- C5: the browser-validation gate in `Request.send` is inverted with
respect to the claim and to its own documentation comment.  With
`browserValidate` enabled and a bound form, a VALID form
(`checkValidity()` returns `true`) makes `send` throw
`ValidationFailedError` before any dispatch or transport attempt, while an
INVALID form (`checkValidity()` returns `false`) proceeds all the way to
the transport call without any `ValidationFailedError`. -/
theorem c5_validation_gate_inverted :
    requestSend true true true (.bool false) okHooks
        (.ok ⟨200, "OK", [("result", JsVal.null)]⟩) =
      ([], .rejected .validationFailed) ∧
    requestSend true false true (.bool false) okHooks
        (.ok ⟨200, "OK", [("result", JsVal.null)]⟩) =
      ([.ajaxSetupDispatch, .wnBeforeRequestDispatch, .setupHook,
        .transportCall, .successHook, .completeHook],
       .resolved (some ⟨200, "OK", [("result", JsVal.null)]⟩)) :=
  ⟨rfl, rfl⟩

/-- C6: option-resolution precedence.  For every configuration key the
resolved options take the explicit caller-supplied value when the caller
supplies the key, otherwise the element-derived layer value when that layer
carries the key (it always carries the eleven element-derived keys, with the
attribute transform applied), otherwise the built-in default; in particular
a caller option `flash: true` yields `flash === true` regardless of the
dataset of the element. -/
theorem c6_option_precedence :
    (∀ (p2o : Option String → JsVal) (loc : String) (ds : Dataset)
       (caller : ObjMap) (key : String),
       getProp (resolveOptions p2o loc ds caller) key =
         if hasKey caller key then getProp caller key
         else if hasKey (elementLayer p2o ds) key then
           getProp (elementLayer p2o ds) key
         else getProp (defaultsMap loc) key) ∧
    (∀ (p2o : Option String → JsVal) (loc : String) (ds : Dataset),
       getProp (resolveOptions p2o loc ds [("flash", JsVal.bool true)])
         "flash" = JsVal.bool true) := by
  constructor
  · intro p2o loc ds caller key
    rw [resolveOptions, getProp_append, getProp_append, hasKey_append]
    by_cases hc : hasKey caller key <;>
      by_cases he : hasKey (elementLayer p2o ds) key <;> simp [hc, he]
  · intro p2o loc ds
    rfl

/-- C7: the handler-name pattern check is weaker than claimed.  The name
`oops` is not of the documented form `[scopeName::]onEventName` (its second
character is not `n`), yet `validateHandler` accepts it — the regex
`^(?:\w+:{2})?on*` only demands the letter `o` followed by zero or more `n`
— and construction with it succeeds, so names violating the documented
pattern do reach constructed instances.  The absent-name half of the claim
does hold. -/
theorem c7_regex_accepts_non_on_names :
    validateHandler (some "oops") = .ok () ∧
    specClaimedHandlerFormat "oops" = false ∧
    requestConstruct paramToObjEmpty "https://example.test/" (some "oops")
        [] [] =
      .ok (resolveOptions paramToObjEmpty "https://example.test/" [] []) ∧
    validateHandler none =
      .error "The request handler name is not specified." :=
  ⟨rfl, rfl, rfl, rfl⟩

/-- C8: injection modes of `injectPartials`.  For a key whose resolved
selector has no prefix and matches an element, one application replaces the
whole content with the value and a second application of the same key/value
pair leaves the DOM exactly as after the first (idempotent full replace).
For the same key prefixed with `@`, each application appends, so applying
twice accumulates the value twice; prefixed with `^`, the value is inserted
at the start of the content. -/
theorem c8_partial_injection_modes (dom : Dom) (k v c : String)
    (h1 : firstChar k ≠ some '^') (h2 : firstChar k ≠ some '@')
    (hq : querySelector dom k = some c) :
    querySelector (applyOnce dom k v).dom k = some v ∧
    (applyOnce (applyOnce dom k v).dom k v).dom = (applyOnce dom k v).dom ∧
    querySelector (applyOnce dom ("@" ++ k) v).dom k = some (c ++ v) ∧
    querySelector
      (applyOnce (applyOnce dom ("@" ++ k) v).dom ("@" ++ k) v).dom k =
      some (c ++ v ++ v) ∧
    querySelector (applyOnce dom ("^" ++ k) v).dom k = some (v ++ c) := by
  have e1 := applyOnce_replace dom k v c h1 h2 hq
  have q1 : querySelector (setContent dom k v) k = some v :=
    querySelector_setContent dom k v c hq
  have e2 := applyOnce_replace (setContent dom k v) k v v h1 h2 q1
  have ea1 := applyOnce_append dom k v c hq
  have qa1 : querySelector (setContent dom k (c ++ v)) k = some (c ++ v) :=
    querySelector_setContent dom k (c ++ v) c hq
  have ea2 := applyOnce_append (setContent dom k (c ++ v)) k v (c ++ v) qa1
  have ep1 := applyOnce_prepend dom k v c hq
  refine ⟨?_, ?_, ?_, ?_, ?_⟩
  · rw [e1]; exact q1
  · rw [e1, e2]
    exact setContent_setContent dom k v v
  · rw [ea1]; exact qa1
  · rw [ea1, ea2]
    exact querySelector_setContent (setContent dom k (c ++ v)) k
      (c ++ v ++ v) (c ++ v) qa1
  · rw [ep1]
    exact querySelector_setContent dom k (v ++ c) c hq

theorem c8_witness :
    querySelector [("#target", "z")] "#target" = some "z" ∧
    (querySelector (applyOnce [("#target", "z")] "#target" "<p>x</p>").dom
        "#target" = some "<p>x</p>" ∧
     (applyOnce (applyOnce [("#target", "z")] "#target" "<p>x</p>").dom
        "#target" "<p>x</p>").dom =
       (applyOnce [("#target", "z")] "#target" "<p>x</p>").dom ∧
     querySelector (applyOnce [("#target", "z")] ("@" ++ "#target")
        "<p>x</p>").dom "#target" = some ("z" ++ "<p>x</p>") ∧
     querySelector
       (applyOnce (applyOnce [("#target", "z")] ("@" ++ "#target")
          "<p>x</p>").dom ("@" ++ "#target") "<p>x</p>").dom "#target" =
       some ("z" ++ "<p>x</p>" ++ "<p>x</p>") ∧
     querySelector (applyOnce [("#target", "z")] ("^" ++ "#target")
        "<p>x</p>").dom "#target" = some ("<p>x</p>" ++ "z")) :=
  ⟨rfl,
   c8_partial_injection_modes [("#target", "z")] "#target" "<p>x</p>" "z"
     (by decide) (by decide) rfl⟩

/-- C9 counterexample: a payload whose first key matches no element.  The
claim predicts a silent no-op for that key, continued processing of the
remaining keys and a final update-complete dispatch; the code instead
throws a `TypeError` (member access on the `null` query result): the run
records no events at all, the remaining key `#present` is left untouched,
and no update-complete notification is dispatched. -/
theorem c9_counterexample :
    injectPartials [] [("#present", "old")]
        [("#missing", JsVal.str "<p>x</p>"),
         ("#present", JsVal.str "<p>y</p>")] =
      ⟨[], [("#present", "old")], some .typeError⟩ :=
  rfl

/-- C9 (amended): whenever `injectPartials` reaches a key whose resolved
selector matches no DOM element, it throws a `TypeError` at that key: no
notification fires for it, the remaining keys are not processed, the DOM is
left as it was at that point, and the final update-complete notification is
not dispatched.  (Stated for the first unmatched key of the remaining list;
the DOM argument is the state after any earlier, successful keys.) -/
theorem c9_missing_selector_throws (update : List (String × String))
    (dom : Dom) (k : String) (v : JsVal) (rest : List (String × JsVal))
    (h : matchedElement dom (resolveSelector update k) = none) :
    injectPartials update dom ((k, v) :: rest) =
      ⟨[], dom, some .typeError⟩ := by
  have hstep := injectStep_missing dom (resolveSelector update k) v h
  simp [injectPartials, injectLoop, hstep]

theorem c9_witness :
    matchedElement [("#a", "x")] (resolveSelector [] "#b") = none ∧
    injectPartials [] [("#a", "x")]
        [("#b", JsVal.str "u"), ("#a", JsVal.str "w")] =
      ⟨[], [("#a", "x")], some .typeError⟩ :=
  ⟨rfl,
   c9_missing_selector_throws [] [("#a", "x")] "#b" (JsVal.str "u")
     [("#a", JsVal.str "w")] rfl⟩

/-- C10 counterexample: the claim that every absent `data-request-*`
attribute overwrites its built-in default with `undefined` fails for the
parsed attributes.  With no `data-request-flash` attribute and no caller
option, the element layer stores `stringToBoolean(undefined)`, i.e. the
boolean `false` — not `undefined`. -/
theorem c10_counterexample :
    getProp (resolveOptions paramToObjEmpty "https://example.test/" [] [])
      "flash" = JsVal.bool false ∧
    JsVal.bool false ≠ JsVal.undefined :=
  ⟨rfl, fun h => JsVal.noConfusion h⟩

/-- C10 (amended): the raw string-valued attributes do overwrite their
defaults with `undefined` when absent; in particular, with no
`data-request-confirm` attribute and no caller-supplied `confirm` option the
resolved `confirm` option is `undefined` (not the built-in default
`false`), and since `undefined !== false`, `send` still enters the
confirmation step: the confirm hook is invoked (with a null message) on
every such run. -/
theorem c10_absent_confirm_is_undefined (p2o : Option String → JsVal)
    (loc : String) (ds : Dataset) (caller : ObjMap)
    (h1 : dsGet ds "requestConfirm" = none)
    (h2 : hasKey caller "confirm" = false) :
    getProp (resolveOptions p2o loc ds caller) "confirm" = JsVal.undefined ∧
    ∀ (o : HookOutcomes) (transport : Except AxiosErr AxiosResp),
      Ev.confirmHook none ∈
        (sendBase (getProp (resolveOptions p2o loc ds caller) "confirm")
          o transport).1 := by
  have hres :
      getProp (resolveOptions p2o loc ds caller) "confirm" =
        JsVal.undefined := by
    rw [resolveOptions, getProp_append, getProp_append, hasKey_append]
    simp [h2, elementLayer, hasKey, getProp, h1, jsOfDataset]
  refine ⟨hres, ?_⟩
  intro o transport
  rw [hres]
  unfold sendBase
  simp only [isStrictFalse, confirmMessage, Bool.false_eq_true, if_false]
  cases ho : o.confirm with
  | error e => simp
  | ok v =>
    by_cases hv : truthy v
    · simp [hv]
    · simp [hv]

theorem c10_witness :
    dsGet [] "requestConfirm" = none ∧
    getProp (resolveOptions paramToObjEmpty "https://example.test/" [] [])
      "confirm" = JsVal.undefined ∧
    Ev.confirmHook none ∈
      (sendBase
        (getProp (resolveOptions paramToObjEmpty "https://example.test/"
          [] []) "confirm")
        okHooks (.ok ⟨200, "OK", [("result", JsVal.null)]⟩)).1 :=
  ⟨rfl,
   (c10_absent_confirm_is_undefined paramToObjEmpty "https://example.test/"
     [] [] rfl rfl).1,
   (c10_absent_confirm_is_undefined paramToObjEmpty "https://example.test/"
     [] [] rfl rfl).2 okHooks (.ok ⟨200, "OK", [("result", JsVal.null)]⟩)⟩
